import Mathlib

/-!
Shallow embedding of `src/esm2m/thermodynamics.py` over the real numbers.

Each Python stage function is a pure closed-form numeric map; it is embedded
as a Lean function on `ℝ`, with `np.exp`, `np.log`, `np.arctan`, `np.sqrt`
and float powers rendered as `Real.exp`, `Real.log`, `Real.arctan`,
`Real.sqrt` and `Real.rpow`.  The higher-level entry points
`_calc_wbt_from_tref_sh_p` and `_calc_wbt_from_tref_rh_p` are embedded as
`Option ℝ`-valued functions so that a Python `return x` becomes `some x`
and falling off the end of the function body (Python's implicit
`return None`) becomes `none`.
-/

noncomputable section

/-- `calc_esat_from_tref(tref)`: saturation vapor pressure [mbar] from the
absolute temperature [K]. -/
def calc_esat_from_tref (tref : ℝ) : ℝ :=
  Real.exp (-2991.2729 / tref ^ 2 - 6017.0128 / tref
      + 18.87643854 - 0.028354721 * tref
      + 1.7838301e-5 * tref ^ 2 - 8.4150417e-10 * tref ^ 3
      + 4.4412542e-13 * tref ^ 4 + 2.858487 * Real.log tref) / 100

/-- `calc_wsat_from_esat_p(esat, p)`: saturation mixing ratio [g/kg] from the
saturation vapor pressure [mbar] and the pressure [mbar]. -/
def calc_wsat_from_esat_p (esat p : ℝ) : ℝ :=
  621.97 * esat / (p - esat)

/-- `calc_rh_from_sh_wsat(sh, wsat)`: relative humidity [%] from the specific
humidity [kg/kg] and the saturation mixing ratio [g/kg]. -/
def calc_rh_from_sh_wsat (sh wsat : ℝ) : ℝ :=
  100 * sh / ((1 - sh) * wsat / 1000)

/-- `calc_w_from_sh(sh)`: mixing ratio [g/kg] from specific humidity [kg/kg]. -/
def calc_w_from_sh (sh : ℝ) : ℝ :=
  1000 * sh / (1 - sh)

/-- `calc_w_from_wsat_rh(wsat, rh)`: mixing ratio [g/kg] from the saturation
mixing ratio [g/kg] and the relative humidity [%]. -/
def calc_w_from_wsat_rh (wsat rh : ℝ) : ℝ :=
  rh / 100 * wsat

/-- `calc_tl_from_tref_rh(tref, rh)`: lifting condensation temperature [K]
from the absolute temperature [K] and the relative humidity [%]. -/
def calc_tl_from_tref_rh (tref rh : ℝ) : ℝ :=
  1 / (1 / (tref - 55) - Real.log (rh / 100) / 2840) + 55

/-- `calc_theta_from_w_tref_tl_p(w, tref, tl, p)`: potential temperature
equivalent [K] of the lifting condensation temperature. -/
def calc_theta_from_w_tref_tl_p (w tref tl p : ℝ) : ℝ :=
  tref * (1000 / p) ^ (0.2854 * (1 - 0.28e-3 * w))
    * Real.exp ((3.376 / tl - 0.00254) * w * (1 + 0.81e-3 * w))

/-- `calc_wbt_from_theta(theta)`: wet bulb temperature [C] from the potential
temperature equivalent of the lifting condensation temperature [K]. -/
def calc_wbt_from_theta (theta : ℝ) : ℝ :=
  45.114 - 51.489 * (theta / 273.15) ^ (-3.504 : ℝ)

/-- `calc_wbt_from_tref_rh(tref, rh)`: wet bulb temperature per the formula of
Stull (2011); the body first rebinds `tref` to `tref - 273.15` (Kelvin to
Celsius) and then sums the five Stull terms. -/
def calc_wbt_from_tref_rh (tref rh : ℝ) : ℝ :=
  let tref := tref - 273.15
  let term1_stull := tref * Real.arctan (0.151977 * Real.sqrt (rh + 8.313659))
  let term2_stull := Real.arctan (tref + rh)
  let term3_stull := Real.arctan (rh - 1.676331)
  let term4_stull := 0.00391838 * rh ^ (1.5 : ℝ) * Real.arctan (0.023101 * rh)
  let term5_stull := 4.686035
  term1_stull + term2_stull - term3_stull + term4_stull - term5_stull

/-- `_calc_wbt_from_tref_sh_p(tref, sh, p, method)`: the wet-bulb entry point.
In the Python source only the `Stull` branch ends in `return wbt`; the
`Davies-Jones` branch computes `wbt` and then falls off the end of the
function (implicit `return None`), and so does any unmatched `method`.
The source's default argument `method='Davies-Jones'` is omitted here;
every use below passes `method` explicitly. -/
def _calc_wbt_from_tref_sh_p (tref sh p : ℝ) (method : String) : Option ℝ :=
  if method = "Davies-Jones" then
    let esat := calc_esat_from_tref tref
    let wsat := calc_wsat_from_esat_p esat p
    let rh := calc_rh_from_sh_wsat sh wsat
    let w := calc_w_from_wsat_rh wsat rh
    let tl := calc_tl_from_tref_rh tref rh
    let theta := calc_theta_from_w_tref_tl_p w tref tl p
    let _wbt := calc_wbt_from_theta theta
    none
  else if method = "Stull" then
    let esat := calc_esat_from_tref tref
    let wsat := calc_wsat_from_esat_p esat p
    let rh := calc_rh_from_sh_wsat sh wsat
    let wbt := calc_wbt_from_tref_rh tref rh
    some wbt
  else
    none

/-- `_calc_rh_from_tref_sh_p(tref, sh, p)`: relative humidity entry point,
running `esat→wsat→rh` and returning `rh`. -/
def _calc_rh_from_tref_sh_p (tref sh p : ℝ) : ℝ :=
  let esat := calc_esat_from_tref tref
  let wsat := calc_wsat_from_esat_p esat p
  let rh := calc_rh_from_sh_wsat sh wsat
  rh

/-- `_calc_wbt_from_tref_rh_p(tref, rh, p)`: wet bulb temperature from
absolute temperature [K], relative humidity [%] and pressure [mbar]; this
variant ends in `return wbt`, hence `some`. -/
def _calc_wbt_from_tref_rh_p (tref rh p : ℝ) : Option ℝ :=
  let esat := calc_esat_from_tref tref
  let wsat := calc_wsat_from_esat_p esat p
  let w := calc_w_from_wsat_rh wsat rh
  let tl := calc_tl_from_tref_rh tref rh
  let theta := calc_theta_from_w_tref_tl_p w tref tl p
  let wbt := calc_wbt_from_theta theta
  some wbt

/-- The `esat→wsat→rh` stage sequence as it is written inside the
`Davies-Jones` branch of `_calc_wbt_from_tref_sh_p` (lines 84-86 of the
source). -/
def wbt_dj_branch_rh (tref sh p : ℝ) : ℝ :=
  let esat := calc_esat_from_tref tref
  let wsat := calc_wsat_from_esat_p esat p
  calc_rh_from_sh_wsat sh wsat

/-- The `esat→wsat→rh` stage sequence as it is written inside the `Stull`
branch of `_calc_wbt_from_tref_sh_p` (lines 92-94 of the source). -/
def wbt_stull_branch_rh (tref sh p : ℝ) : ℝ :=
  let esat := calc_esat_from_tref tref
  let wsat := calc_wsat_from_esat_p esat p
  calc_rh_from_sh_wsat sh wsat

/-- The value of the full Davies-Jones 6-stage composition
`esat→wsat→rh→w→tl→theta→wbt` as it is computed inside the `Davies-Jones`
branch of `_calc_wbt_from_tref_sh_p` (the value bound to `wbt` there, even
though that branch never returns it). -/
def wbt_dj_chain (tref sh p : ℝ) : ℝ :=
  let esat := calc_esat_from_tref tref
  let wsat := calc_wsat_from_esat_p esat p
  let rh := calc_rh_from_sh_wsat sh wsat
  let w := calc_w_from_wsat_rh wsat rh
  let tl := calc_tl_from_tref_rh tref rh
  let theta := calc_theta_from_w_tref_tl_p w tref tl p
  calc_wbt_from_theta theta

/-- The Stull (2011) direct empirical fit, written down from the spec's
description as a function of the Celsius temperature and the relative
humidity (the spec: `wbt_stull = f_wbt_stull(tref_celsius, rh)`, a direct
fit with no lifting-condensation computation). -/
def stull2011_fit (tref_celsius rh : ℝ) : ℝ :=
  tref_celsius * Real.arctan (0.151977 * Real.sqrt (rh + 8.313659))
    + Real.arctan (tref_celsius + rh)
    - Real.arctan (rh - 1.676331)
    + 0.00391838 * rh ^ (1.5 : ℝ) * Real.arctan (0.023101 * rh)
    - 4.686035

end

/-- C1: at the concrete inputs tref=300 K, sh=0.01, p=1013 mbar and
method="Davies-Jones", the entry point `_calc_wbt_from_tref_sh_p` does NOT
return a wet-bulb temperature: the Davies-Jones branch computes `wbt` and
then falls off the end of the function, so the call evaluates to `none`
(Python `None`) instead of the claimed numeric value below tref − 273.15. -/
theorem dj_branch_returns_none_at_concrete :
    _calc_wbt_from_tref_sh_p 300 0.01 1013 "Davies-Jones" = none := by
  unfold _calc_wbt_from_tref_sh_p
  rw [if_pos rfl]

/-- C2: for every input (tref, sh, p) and every method string that is neither
"Davies-Jones" nor "Stull", `_calc_wbt_from_tref_sh_p` silently returns no
value (`none`): neither branch matches and the function falls through. -/
theorem unmatched_method_returns_none (tref sh p : ℝ) (method : String)
    (h1 : method ≠ "Davies-Jones") (h2 : method ≠ "Stull") :
    _calc_wbt_from_tref_sh_p tref sh p method = none := by
  unfold _calc_wbt_from_tref_sh_p
  rw [if_neg h1, if_neg h2]

/-- Witness for C2 at tref=300, sh=0.01, p=1013 and method="foo". -/
theorem unmatched_method_returns_none_witness :
    "foo" ≠ "Davies-Jones" ∧ "foo" ≠ "Stull" ∧
      _calc_wbt_from_tref_sh_p 300 0.01 1013 "foo" = none :=
  ⟨by decide, by decide,
    unmatched_method_returns_none 300 0.01 1013 "foo" (by decide) (by decide)⟩

/-- C3: for every (tref, sh, p), the value returned by
`_calc_rh_from_tref_sh_p` is identical to the rh value computed by the
shared `esat→wsat→rh` stage sequence inside `_calc_wbt_from_tref_sh_p`,
in the Davies-Jones branch as well as in the Stull branch. -/
theorem rh_entry_consistent_with_wbt_branches (tref sh p : ℝ) :
    _calc_rh_from_tref_sh_p tref sh p = wbt_dj_branch_rh tref sh p ∧
      _calc_rh_from_tref_sh_p tref sh p = wbt_stull_branch_rh tref sh p :=
  ⟨rfl, rfl⟩

/-- C4: for every (tref, sh, p), the Stull branch of
`_calc_wbt_from_tref_sh_p` returns the short 3-stage chain
`esat→wsat→rh→wbt_stull`; and the final stage `calc_wbt_from_tref_rh` is
exactly the Stull (2011) direct fit evaluated at (tref − 273.15, rh), i.e.
it first converts Kelvin to Celsius and involves no lifting-condensation
computation. -/
theorem stull_branch_is_short_chain :
    (∀ tref sh p : ℝ, _calc_wbt_from_tref_sh_p tref sh p "Stull" =
        some (calc_wbt_from_tref_rh tref (wbt_stull_branch_rh tref sh p))) ∧
      (∀ tref rh : ℝ,
        calc_wbt_from_tref_rh tref rh = stull2011_fit (tref - 273.15) rh) := by
  constructor
  · intro tref sh p
    unfold _calc_wbt_from_tref_sh_p
    rw [if_neg (by decide), if_pos rfl]
    rfl
  · intro tref rh
    rfl

/-- C6: for every wsat, `calc_w_from_wsat_rh wsat 100 = wsat` exactly. -/
theorem w_at_full_rh_is_wsat (wsat : ℝ) :
    calc_w_from_wsat_rh wsat 100 = wsat := by
  unfold calc_w_from_wsat_rh
  norm_num

/-- Counterexample for C7 as stated: at p = −1, esat1 = −3, esat2 = −2 the
side condition esat1 < esat2 < p holds, yet `calc_wsat_from_esat_p` is not
increasing there (f(−3) = −932.955 while f(−2) = −1243.94): monotonicity
fails when `p` is allowed to be negative. -/
theorem wsat_monotone_fails_at_negative_p :
    (-3 : ℝ) < -2 ∧ (-2 : ℝ) < -1 ∧
      ¬ (calc_wsat_from_esat_p (-3) (-1) < calc_wsat_from_esat_p (-2) (-1)) := by
  refine ⟨by norm_num, by norm_num, ?_⟩
  unfold calc_wsat_from_esat_p
  norm_num

/-- C7 (amended with 0 < p): for every p > 0, `calc_wsat_from_esat_p` is
strictly increasing in esat on the domain esat < p: for all
esat1 < esat2 < p, f(esat1) < f(esat2). -/
theorem wsat_monotone_in_esat (esat1 esat2 p : ℝ) (hp : 0 < p)
    (h12 : esat1 < esat2) (h2p : esat2 < p) :
    calc_wsat_from_esat_p esat1 p < calc_wsat_from_esat_p esat2 p := by
  unfold calc_wsat_from_esat_p
  have hd1 : 0 < p - esat1 := by linarith
  have hd2 : 0 < p - esat2 := by linarith
  rw [div_lt_div_iff₀ hd1 hd2]
  nlinarith [mul_pos hp (sub_pos.mpr h12)]

/-- Witness for the amended C7 at esat1=1, esat2=2, p=3. -/
theorem wsat_monotone_in_esat_witness :
    (0 : ℝ) < 3 ∧ (1 : ℝ) < 2 ∧ (2 : ℝ) < 3 ∧
      calc_wsat_from_esat_p 1 3 < calc_wsat_from_esat_p 2 3 :=
  ⟨by norm_num, by norm_num, by norm_num,
    wsat_monotone_in_esat 1 2 3 (by norm_num) (by norm_num) (by norm_num)⟩

/-- C8: for every tref in the band 250 K to 320 K,
`calc_esat_from_tref tref > 0` (the value is `exp(…)/100`, and the
exponential is positive at every real argument). -/
theorem esat_positive (tref : ℝ) (h1 : 250 ≤ tref) (h2 : tref ≤ 320) :
    0 < calc_esat_from_tref tref := by
  unfold calc_esat_from_tref
  positivity

/-- Witness for C8 at tref = 300. -/
theorem esat_positive_witness :
    (250 : ℝ) ≤ 300 ∧ (300 : ℝ) ≤ 320 ∧ 0 < calc_esat_from_tref 300 :=
  ⟨by norm_num, by norm_num, esat_positive 300 (by norm_num) (by norm_num)⟩

/-- C9: for every sh with 0 < sh < 1 and every wsat ≠ 0, the two ways of
computing the mixing ratio agree exactly:
`calc_w_from_wsat_rh wsat (calc_rh_from_sh_wsat sh wsat)` equals
`calc_w_from_sh sh`, which is 1000·sh/(1−sh) — the wsat factor cancels. -/
theorem mixing_ratio_paths_agree (sh wsat : ℝ) (h0 : 0 < sh) (h1 : sh < 1)
    (hw : wsat ≠ 0) :
    calc_w_from_wsat_rh wsat (calc_rh_from_sh_wsat sh wsat) = calc_w_from_sh sh ∧
      calc_w_from_sh sh = 1000 * sh / (1 - sh) := by
  constructor
  · unfold calc_w_from_wsat_rh calc_rh_from_sh_wsat calc_w_from_sh
    have hs : (1 : ℝ) - sh ≠ 0 := ne_of_gt (by linarith)
    field_simp
    ring
  · rfl

/-- Witness for C9 at sh = 1/2, wsat = 5. -/
theorem mixing_ratio_paths_agree_witness :
    (0 : ℝ) < 1/2 ∧ (1/2 : ℝ) < 1 ∧ (5 : ℝ) ≠ 0 ∧
      (calc_w_from_wsat_rh 5 (calc_rh_from_sh_wsat (1/2) 5) = calc_w_from_sh (1/2) ∧
        calc_w_from_sh (1/2) = 1000 * (1/2) / (1 - 1/2)) :=
  ⟨by norm_num, by norm_num, by norm_num,
    mixing_ratio_paths_agree (1/2) 5 (by norm_num) (by norm_num) (by norm_num)⟩

/-- C10: for every (tref, sh, p), the rh-taking variant
`_calc_wbt_from_tref_rh_p` applied to (tref, `_calc_rh_from_tref_sh_p`
tref sh p, p) returns (`some`) exactly the value of the full Davies-Jones
6-stage composition `esat→wsat→rh→w→tl→theta→wbt`: it is the Davies-Jones
tail of the pipeline and actually returns its result. -/
theorem rh_variant_is_dj_tail (tref sh p : ℝ) :
    _calc_wbt_from_tref_rh_p tref (_calc_rh_from_tref_sh_p tref sh p) p =
      some (wbt_dj_chain tref sh p) :=
  rfl
